import Mathlib

/-!
Shallow embedding of the recipe-app-backend Express handlers (src/app.js)
over an abstract relational store, together with theorems settling the
spec's claims about the PATCH statement builder and the reconciliation
behaviour of POST / PUT / PATCH / DELETE.

The embedding follows src/app.js:
* the PATCH statement builder (lines 162-169) is `buildPatchStatement`;
* the store (PostgreSQL `recipes` table, external to the repo) is modelled
  by `Store` with the semantics of the exact statement shapes the handlers
  issue (`execPatch`, and inline in the handlers for the fixed statements);
* each route handler becomes a function from its request data and a store
  to a `HandlerResult` recording the HTTP response, the resulting store,
  whether a store call was dispatched, and whether `client.release()` ran.
A `storeOk` flag models datastore connectivity: when it is `false` the
query raises, which the handler's catch-block turns into a 500 response.
-/

namespace RecipeApp

/-- A JSON value as delivered by the `express.json()` body parser.
JSON cannot produce `undefined`, so a body value is null, a string,
a number or a boolean (nested objects/arrays do not occur in this API). -/
inductive JVal where
  | jnull
  | jstr (s : String)
  | jnum (n : Int)
  | jbool (b : Bool)
deriving DecidableEq, Repr

/-- Text coercion a parameter undergoes when bound to a text column. -/
def JVal.asText : JVal → String
  | .jnull => ""
  | .jstr s => s
  | .jnum n => toString n
  | .jbool b => if b then "true" else "false"

/-- A request body object: key/value pairs in key-enumeration order.
JavaScript objects have unique keys, so theorems about bodies assume
`(vals.map Prod.fst).Nodup` where it matters. -/
abbrev Body := List (String × JVal)

/-- `Object.keys(vals)`: the keys in enumeration order. -/
def objKeys (vals : Body) : List String := vals.map Prod.fst

/-- `vals[key]` for a key of the object (lookup of the first binding). -/
def objGet (vals : Body) (k : String) : JVal :=
  match vals.find? (fun kv => kv.1 = k) with
  | some kv => kv.2
  | none => JVal.jnull

/-- One row of the `recipes` table:
`id serial primary key, name text, description text, photo text`. -/
structure Recipe where
  id : Nat
  name : String
  description : String
  photo : String
deriving DecidableEq, Repr

/-- The external store: the rows of the `recipes` table plus the next
value of the `id` serial sequence. -/
structure Store where
  rows : List Recipe
  nextId : Nat
deriving DecidableEq, Repr

/-- HTTP response of a handler: `res.send(msg)` (200) or
`res.status(500).send(msg)`. -/
inductive Outcome where
  | success (msg : String)
  | serverError (msg : String)
deriving DecidableEq, Repr

/-- Whether the response is a 200 success. -/
def Outcome.isSuccess : Outcome → Bool
  | .success _ => true
  | .serverError _ => false

/-- Observable result of one handler invocation: the response sent, the
store afterwards, whether a store call was dispatched, and whether
`client.release()` was executed. -/
structure HandlerResult where
  response : Outcome
  store : Store
  storeCalled : Bool
  released : Bool
deriving DecidableEq, Repr

/-- A parameterized statement: its text and its positional parameters. -/
structure Stmt where
  text : String
  params : List JVal
deriving DecidableEq, Repr

/-- Line 162: `Object.keys(vals).filter((key) => vals[key] !== null)`. -/
def patchKeys (vals : Body) : List String :=
  (objKeys vals).filter (fun k => objGet vals k ≠ JVal.jnull)

/-- Lines 162-172 of src/app.js, the PATCH statement builder:
`keys` filters out null-valued keys, `values` collects their values,
`keysWithId` renders `key = $i` with `i = keys.indexOf(key) + 1`,
and the statement text is
`` `UPDATE recipes SET ${keysWithIdString} WHERE id = ${id}` ``
(the route parameter `id` is concatenated into the text), while only
`values` is passed as the parameter list. -/
def buildPatchStatement (id : String) (vals : Body) : Stmt :=
  let keys := patchKeys vals
  let values := keys.map (fun k => objGet vals k)
  let keysWithId := keys.map (fun k => k ++ " = $" ++ toString (keys.indexOf k + 1))
  let keysWithIdString := String.intercalate ", " keysWithId
  let keysWithIdStringWithId := keysWithIdString ++ " WHERE id = " ++ id
  { text := "UPDATE recipes SET " ++ keysWithIdStringWithId, params := values }

/-- Line 169 of src/app.js: `valuesString + `, ${id}`` — computed by the
handler but never used in the query. -/
def valuesStringWithId (id : String) (vals : Body) : String :=
  String.intercalate ", " (((patchKeys vals).map (fun k => objGet vals k)).map JVal.asText)
    ++ ", " ++ id

/-- The mutable recipe fields the API exposes — the field set PATCH is
meant to accept. The table itself has one more column, `id`; see
`tableColumns`. -/
def allowedColumns : List String := ["name", "description", "photo"]

/-- All columns of the `recipes` table. A SET clause naming any of
these is accepted by the store; any other name is an undefined-column
query error. -/
def tableColumns : List String := ["id", "name", "description", "photo"]

/-- Accumulating decimal parser over the characters of an id string. -/
def parseNatAux : List Char → Nat → Option Nat
  | [], acc => some acc
  | c :: cs, acc =>
      if 48 ≤ c.toNat ∧ c.toNat ≤ 57 then parseNatAux cs (acc * 10 + (c.toNat - 48))
      else none

/-- How the store reads an `id` value (an interpolated literal or a bound
parameter compared against the integer `id` column): a non-empty digit
string parses to the number it denotes, anything else is a query error. -/
def parseId (s : String) : Option Nat :=
  if s.data = [] then none else parseNatAux s.data 0

/-- Assign one column of a row. Assigning `id` coerces the bound text
back to an integer; `execPatch` dispatches it only when that coercion
succeeds, so the `getD` fallback is never reached there. -/
def setField (r : Recipe) (k : String) (v : String) : Recipe :=
  if k = "id" then { r with id := (parseId v).getD r.id }
  else if k = "name" then { r with name := v }
  else if k = "description" then { r with description := v }
  else if k = "photo" then { r with photo := v }
  else r

/-- Apply a SET list to a row, left to right. -/
def applyUpdates (r : Recipe) (ups : List (String × String)) : Recipe :=
  ups.foldl (fun r kv => setField r kv.1 kv.2) r

/-- Store semantics of the statement `buildPatchStatement id vals`
produces: `UPDATE recipes SET k1 = $1, ..., kn = $n WHERE id = <id>`
with parameters `params`. The query errors (`none`) when the SET list is
empty (syntax error), when a key is not a column of the table (the
table's columns include `id`, so `SET id = $i` is accepted), when a
value assigned to the integer `id` column does not coerce to an
integer, or when the interpolated id literal does not parse as an
integer; otherwise it updates every row matching the id and reports the
affected-row count. A failed statement leaves the store unchanged. -/
def execPatch (keys : List String) (params : List JVal) (idText : String)
    (s : Store) : Option (Store × Nat) :=
  if keys = [] then none
  else if !(keys.all (fun k => tableColumns.contains k)) then none
  else if !((keys.zip (params.map JVal.asText)).all
      (fun kv => kv.1 ≠ "id" ∨ (parseId kv.2).isSome)) then none
  else
    match parseId idText with
    | none => none
    | some n =>
        let ups := keys.zip (params.map JVal.asText)
        some (⟨s.rows.map (fun r => if r.id = n then applyUpdates r ups else r), s.nextId⟩,
              (s.rows.filter (fun r => r.id = n)).length)

/-- Lines 154-182 of src/app.js, the PATCH handler: build the statement,
dispatch it, `release` and send success on query success; on any raise
the catch-block sends a 500 without releasing. No validation happens
before the store call. -/
def patchHandler (storeOk : Bool) (id : String) (vals : Body) (s : Store) :
    HandlerResult :=
  let stmt := buildPatchStatement id vals
  if storeOk then
    match execPatch (patchKeys vals) stmt.params id s with
    | some (s2, _) =>
        { response := .success "Recipe patched successfully", store := s2,
          storeCalled := true, released := true }
    | none =>
        { response := .serverError "Error updating recipe", store := s,
          storeCalled := true, released := false }
  else
    { response := .serverError "Error updating recipe", store := s,
      storeCalled := true, released := false }

/-- Lines 92-112 of src/app.js, the POST /create-recipe handler:
`name`, `description`, `photo` are taken from the JSON body; the
multipart file parsed by multer (`req.file`, here `file`) is never
read. On success the insert appends a row with the store-assigned id. -/
def postHandler (storeOk : Bool) (name description photo : String)
    (file : Option String) (s : Store) : HandlerResult :=
  if storeOk then
    { response := .success "Recipe created successfully",
      store := ⟨s.rows ++ [⟨s.nextId, name, description, photo⟩], s.nextId + 1⟩,
      storeCalled := true, released := true }
  else
    { response := .serverError "Error creating recipe", store := s,
      storeCalled := true, released := false }

/-- Lines 120-148 of src/app.js, the PUT /update-recipe/:id handler.
The UPDATE statement carries no RETURNING clause, so its result has no
rows; the handler then evaluates `result.rows[0].id`, which raises, and
the inner catch-block performs the INSERT fallback. The branch is kept
explicit here: `updatedRows` is the (always empty) row list of the
UPDATE result. The id route parameter is bound as `$4`, so a
non-integer id makes the UPDATE itself error (outer catch, 500, no
release). -/
def putHandler (storeOk : Bool) (id : String) (name description photo : String)
    (s : Store) : HandlerResult :=
  if storeOk then
    match parseId id with
    | none =>
        { response := .serverError "Error updating recipe", store := s,
          storeCalled := true, released := false }
    | some n =>
        let s1 : Store :=
          ⟨s.rows.map (fun r => if r.id = n then ⟨r.id, name, description, photo⟩ else r),
           s.nextId⟩
        let updatedRows : List Recipe := []
        match updatedRows.head? with
        | some _ =>
            { response := .success "Recipe updated successfully", store := s1,
              storeCalled := true, released := true }
        | none =>
            { response := .success "Recipe updated successfully",
              store := ⟨s1.rows ++ [⟨s1.nextId, name, description, photo⟩], s1.nextId + 1⟩,
              storeCalled := true, released := true }
  else
    { response := .serverError "Error updating recipe", store := s,
      storeCalled := true, released := false }

/-- Lines 189-201 of src/app.js, the DELETE /delete-recipe/:id handler:
delete by id, then send success without inspecting the affected-row
count. A non-integer id makes the query error (500, no release). -/
def deleteHandler (storeOk : Bool) (id : String) (s : Store) : HandlerResult :=
  if storeOk then
    match parseId id with
    | none =>
        { response := .serverError "Error deleting recipe", store := s,
          storeCalled := true, released := false }
    | some n =>
        { response := .success "Recipe deleted successfully",
          store := ⟨s.rows.filter (fun r => ¬ r.id = n), s.nextId⟩,
          storeCalled := true, released := true }
  else
    { response := .serverError "Error deleting recipe", store := s,
      storeCalled := true, released := false }

/-- A one-row store used as concrete input in counterexamples. -/
def store1 : Store := ⟨[⟨1, "Toast", "Simple", ""⟩], 2⟩

/-- Positional rendering of a SET clause, the shape the spec describes:
the piece for the field at position `i` (counting from `n`) carries
placeholder `$(i+1)`. -/
def renderSet : Nat → List String → List String
  | _, [] => []
  | i, k :: ks => (k ++ " = $" ++ toString (i + 1)) :: renderSet (i + 1) ks

/-- Unfolding of the builder's statement text. -/
lemma buildPatch_text (id : String) (vals : Body) :
    (buildPatchStatement id vals).text =
      "UPDATE recipes SET " ++
        (String.intercalate ", "
            ((patchKeys vals).map
              (fun k => k ++ " = $" ++ toString ((patchKeys vals).indexOf k + 1)))
          ++ " WHERE id = " ++ id) := rfl

/-- Unfolding of the builder's parameter list. -/
lemma buildPatch_params (id : String) (vals : Body) :
    (buildPatchStatement id vals).params =
      (patchKeys vals).map (fun k => objGet vals k) := rfl

/-- Object lookup steps over the head binding. -/
lemma objGet_cons (a : String × JVal) (t : Body) (x : String) :
    objGet (a :: t) x = if a.1 = x then a.2 else objGet t x := by
  simp only [objGet, List.find?_cons]
  by_cases h : a.1 = x <;> simp [h]

/-- In an object with unique keys, looking a binding's key up returns
its value. -/
lemma objGet_eq_of_mem :
    ∀ (vals : Body), (vals.map Prod.fst).Nodup →
      ∀ kv ∈ vals, objGet vals kv.1 = kv.2 := by
  intro vals
  induction vals with
  | nil => intro _ kv h; cases h
  | cons a t ih =>
    intro hnd kv hmem
    have hn := List.nodup_cons.mp
      (show (a.1 :: t.map Prod.fst).Nodup by simpa only [List.map_cons] using hnd)
    rcases List.mem_cons.mp hmem with heq | hmem
    · subst heq; rw [objGet_cons, if_pos rfl]
    · have hne : a.1 ≠ kv.1 := by
        intro he
        exact hn.1 (by rw [he]; exact List.mem_map_of_mem Prod.fst hmem)
      rw [objGet_cons, if_neg hne]
      exact ih hn.2 kv hmem

/-- The key filter distributes over the head binding when its key is
not repeated below. -/
lemma patchKeys_cons (a : String × JVal) (t : Body)
    (ha : a.1 ∉ t.map Prod.fst) :
    patchKeys (a :: t) =
      if a.2 ≠ JVal.jnull then a.1 :: patchKeys t else patchKeys t := by
  unfold patchKeys objKeys
  simp only [List.map_cons, List.filter_cons]
  have h1 : objGet (a :: t) a.1 = a.2 := by rw [objGet_cons]; simp
  have h2 : (t.map Prod.fst).filter (fun k => objGet (a :: t) k ≠ JVal.jnull)
      = (t.map Prod.fst).filter (fun k => objGet t k ≠ JVal.jnull) := by
    apply List.filter_congr
    intro x hx
    have hne : a.1 ≠ x := fun he => ha (by rw [he]; exact hx)
    rw [objGet_cons, if_neg hne]
  rw [h2, h1]
  by_cases hv : a.2 = JVal.jnull <;> simp [hv]

/-- The keys the builder keeps are exactly the keys of the non-null
bindings, in body order. -/
lemma patchKeys_eq_filter :
    ∀ (vals : Body), (vals.map Prod.fst).Nodup →
      patchKeys vals = (vals.filter (fun kv => kv.2 ≠ JVal.jnull)).map Prod.fst := by
  intro vals
  induction vals with
  | nil => intro _; rfl
  | cons a t ih =>
    intro hnd
    have hn := List.nodup_cons.mp
      (show (a.1 :: t.map Prod.fst).Nodup by simpa only [List.map_cons] using hnd)
    rw [patchKeys_cons a t hn.1, List.filter_cons]
    by_cases hv : a.2 = JVal.jnull
    · rw [if_neg (fun hc => hc hv), if_neg (by simp [hv])]
      exact ih hn.2
    · rw [if_pos hv, if_pos (by simp [hv]), List.map_cons, ih hn.2]

/-- The filtered key list of a unique-key body has no duplicates. -/
lemma patchKeys_nodup (vals : Body) (hnd : (vals.map Prod.fst).Nodup) :
    (patchKeys vals).Nodup :=
  List.Nodup.filter _ hnd

/-- On a duplicate-free key list, rendering each key with
`indexOf`-derived placeholders agrees with positional rendering. -/
lemma map_indexOf_renderSet :
    ∀ (keys : List String), keys.Nodup → ∀ n : Nat,
      keys.map (fun k => k ++ " = $" ++ toString (keys.indexOf k + (n + 1)))
        = renderSet n keys := by
  intro keys
  induction keys with
  | nil => intro _ n; rfl
  | cons k t ih =>
    intro hnd n
    have hn := List.nodup_cons.mp hnd
    simp only [List.map_cons, renderSet]
    have hhead : (k :: t).indexOf k + (n + 1) = n + 1 := by
      rw [List.indexOf_cons_self]; omega
    have htail : t.map (fun x => x ++ " = $" ++ toString ((k :: t).indexOf x + (n + 1)))
        = t.map (fun x => x ++ " = $" ++ toString (t.indexOf x + (n + 1 + 1))) := by
      apply List.map_congr_left
      intro x hx
      have hne : k ≠ x := fun he => hn.1 (by rw [he]; exact hx)
      have hidx : (k :: t).indexOf x + (n + 1) = t.indexOf x + (n + 1 + 1) := by
        rw [List.indexOf_cons_ne t hne]; omega
      rw [hidx]
    rw [hhead, htail, ih hn.2 (n + 1)]

/-- C1 (amended): no field value is ever interpolated into the statement
text — the text of the built statement depends only on the target id and
the sequence of non-null field names, so two PATCH requests with the same
id whose bodies keep the same field-name sequence yield identical
statement text regardless of the field values. (The target id itself IS
interpolated into the text, refuting the original claim; see the
counterexample.) -/
theorem patch_text_independent_of_values (id : String) (vals vals2 : Body)
    (h : patchKeys vals = patchKeys vals2) :
    (buildPatchStatement id vals).text = (buildPatchStatement id vals2).text := by
  rw [buildPatch_text, buildPatch_text, h]

/-- Witness for C1: two bodies assigning `name` the distinct values
`AAA` and `BBB` produce the same statement text. -/
theorem patch_text_independent_of_values_witness :
    patchKeys [("name", JVal.jstr "AAA")] = patchKeys [("name", JVal.jstr "BBB")] ∧
    (buildPatchStatement "7" [("name", JVal.jstr "AAA")]).text
      = (buildPatchStatement "7" [("name", JVal.jstr "BBB")]).text :=
  ⟨by decide, patch_text_independent_of_values "7" _ _ (by decide)⟩

/-- C1 counterexample: two PATCH requests differing only in the target
id yield different statement text, because line 167 of src/app.js
concatenates the raw id into the text. -/
theorem patch_text_depends_on_id :
    (buildPatchStatement "1" [("name", JVal.jstr "a")]).text
      ≠ (buildPatchStatement "2" [("name", JVal.jstr "a")]).text := by decide

/-- C2 (amended): the SET clause lists the non-null fields in body order
with placeholder indices matching that order, but the parameter list
carries only the `|S|` field values — the id is not a bound parameter
(it is interpolated into the text), so the parameter count is `|S|`,
not `|S| + 1`. -/
theorem patch_set_clause_positional (id : String) (vals : Body)
    (hnd : (vals.map Prod.fst).Nodup) :
    (buildPatchStatement id vals).text =
      "UPDATE recipes SET " ++
        (String.intercalate ", " (renderSet 0 (patchKeys vals))
          ++ " WHERE id = " ++ id) ∧
    (buildPatchStatement id vals).params = (patchKeys vals).map (fun k => objGet vals k) ∧
    (buildPatchStatement id vals).params.length = (patchKeys vals).length := by
  refine ⟨?_, rfl, ?_⟩
  · rw [buildPatch_text]
    have hkeys : (patchKeys vals).Nodup := patchKeys_nodup vals hnd
    have hR := map_indexOf_renderSet (patchKeys vals) hkeys 0
    simp only [Nat.zero_add] at hR
    rw [hR]
  · rw [buildPatch_params, List.length_map]

/-- Witness for C2: a two-field body with distinct keys. -/
theorem patch_set_clause_positional_witness :
    (([("name", JVal.jstr "x"), ("photo", JVal.jstr "y")] : Body).map Prod.fst).Nodup ∧
    ((buildPatchStatement "9" [("name", JVal.jstr "x"), ("photo", JVal.jstr "y")]).text =
      "UPDATE recipes SET " ++
        (String.intercalate ", "
            (renderSet 0 (patchKeys [("name", JVal.jstr "x"), ("photo", JVal.jstr "y")]))
          ++ " WHERE id = " ++ "9") ∧
     (buildPatchStatement "9" [("name", JVal.jstr "x"), ("photo", JVal.jstr "y")]).params =
       (patchKeys [("name", JVal.jstr "x"), ("photo", JVal.jstr "y")]).map
         (fun k => objGet [("name", JVal.jstr "x"), ("photo", JVal.jstr "y")] k) ∧
     (buildPatchStatement "9" [("name", JVal.jstr "x"), ("photo", JVal.jstr "y")]).params.length =
       (patchKeys [("name", JVal.jstr "x"), ("photo", JVal.jstr "y")]).length) :=
  ⟨by decide, patch_set_clause_positional "9" _ (by decide)⟩

/-- C2 counterexample: for the one-field body assigning `name`, the
parameter list has 1 element, not `|S| + 1 = 2` (the id is absent). -/
theorem patch_params_missing_id :
    (buildPatchStatement "5" [("name", JVal.jstr "v")]).params.length ≠ 1 + 1 := by decide

/-- C10 (confirmed): the fields the PATCH handler attempts to update are
exactly the keys of the body bindings whose value is not null, in body
key order, and the parameter list is exactly the values of those
bindings — null-valued keys are dropped from both, while any non-null
value (empty string, false, 0, ...) is retained. -/
theorem patch_fields_are_nonnull_keys (id : String) (vals : Body)
    (hnd : (vals.map Prod.fst).Nodup) :
    patchKeys vals = (vals.filter (fun kv => kv.2 ≠ JVal.jnull)).map Prod.fst ∧
    (buildPatchStatement id vals).params
      = (vals.filter (fun kv => kv.2 ≠ JVal.jnull)).map Prod.snd := by
  refine ⟨patchKeys_eq_filter vals hnd, ?_⟩
  rw [buildPatch_params, patchKeys_eq_filter vals hnd, List.map_map]
  apply List.map_congr_left
  intro kv hkv
  have hv := objGet_eq_of_mem vals hnd kv (List.mem_of_mem_filter hkv)
  simpa [Function.comp] using hv

/-- Witness for C10: a body with a null `name`, an empty-string
`description` and a non-empty `photo` keeps exactly the latter two. -/
theorem patch_fields_are_nonnull_keys_witness :
    (([("name", JVal.jnull), ("description", JVal.jstr ""), ("photo", JVal.jstr "p")] :
        Body).map Prod.fst).Nodup ∧
    (patchKeys [("name", JVal.jnull), ("description", JVal.jstr ""), ("photo", JVal.jstr "p")] =
      (([("name", JVal.jnull), ("description", JVal.jstr ""), ("photo", JVal.jstr "p")] :
          Body).filter (fun kv => kv.2 ≠ JVal.jnull)).map Prod.fst ∧
     (buildPatchStatement "3"
        [("name", JVal.jnull), ("description", JVal.jstr ""), ("photo", JVal.jstr "p")]).params =
      (([("name", JVal.jnull), ("description", JVal.jstr ""), ("photo", JVal.jstr "p")] :
          Body).filter (fun kv => kv.2 ≠ JVal.jnull)).map Prod.snd) :=
  ⟨by decide, patch_fields_are_nonnull_keys "3" _ (by decide)⟩

/-- A successful patch statement never changes the number of rows or the
id sequence: an UPDATE maps rows in place. -/
lemma execPatch_some_shape {keys : List String} {params : List JVal}
    {idText : String} {s s2 : Store} {m : Nat}
    (h : execPatch keys params idText s = some (s2, m)) :
    s2.rows.length = s.rows.length ∧ s2.nextId = s.nextId := by
  unfold execPatch at h
  split at h
  · exact absurd h (by simp)
  · split at h
    · exact absurd h (by simp)
    · split at h
      · exact absurd h (by simp)
      · split at h
        · exact absurd h (by simp)
        · rw [Option.some_inj] at h
          simp only [Prod.mk.injEq] at h
          obtain ⟨hs, _⟩ := h
          rw [← hs]
          exact ⟨List.length_map .., rfl⟩

/-- A patch statement whose id matches no row leaves the store unchanged
and affects zero rows. -/
lemma execPatch_some_no_match {keys : List String} {params : List JVal}
    {idText : String} {s s2 : Store} {m n : Nat}
    (hid : parseId idText = some n)
    (hnom : ∀ r ∈ s.rows, r.id ≠ n)
    (h : execPatch keys params idText s = some (s2, m)) :
    s2 = s ∧ m = 0 := by
  unfold execPatch at h
  split at h
  · exact absurd h (by simp)
  · split at h
    · exact absurd h (by simp)
    · split at h
      · exact absurd h (by simp)
      · rw [hid, Option.some_inj] at h
        simp only [Prod.mk.injEq] at h
        obtain ⟨hs, hm⟩ := h
        have hmap : s.rows.map
            (fun r => if r.id = n then applyUpdates r (keys.zip (params.map JVal.asText)) else r)
            = s.rows := by
          have h1 : s.rows.map
              (fun r => if r.id = n then applyUpdates r (keys.zip (params.map JVal.asText)) else r)
              = s.rows.map (fun r => r) :=
            List.map_congr_left (fun r hr => if_neg (hnom r hr))
          rw [h1, List.map_id']
        have hfil : s.rows.filter (fun r => r.id = n) = [] := by
          rw [List.filter_eq_nil_iff]
          intro r hr
          simp [hnom r hr]
        constructor
        · rw [← hs, hmap]
        · rw [← hm, hfil]
          rfl

/-- Updating rows in place: the PATCH handler never changes the number
of rows, whatever the request and store state. -/
lemma patch_rows_length (b : Bool) (id : String) (vals : Body) (s : Store) :
    ((patchHandler b id vals s).store).rows.length = s.rows.length := by
  cases b with
  | false => rfl
  | true =>
    simp only [patchHandler]
    rcases hexec : execPatch (patchKeys vals) (buildPatchStatement id vals).params id s
      with _ | ⟨s2, m⟩
    · simp [hexec]
    · simp [hexec, (execPatch_some_shape hexec).1]

/-- Rows with ids other than the target are untouched by a full-row
overwrite that matches nothing. -/
lemma map_overwrite_no_match (rows : List Recipe) (n : Nat) (f : Recipe → Recipe)
    (h : ∀ r ∈ rows, r.id ≠ n) :
    rows.map (fun r => if r.id = n then f r else r) = rows := by
  have h1 : rows.map (fun r => if r.id = n then f r else r) = rows.map (fun r => r) :=
    List.map_congr_left (fun r hr => if_neg (h r hr))
  rw [h1, List.map_id']

/-- C3 (code bug): PUT on an id that exists. The UPDATE statement at
line 127 of src/app.js has no RETURNING clause, so `result.rows` is
empty and reading `result.rows[0].id` raises; the catch block at line
133 then runs the INSERT fallback. On a store holding row 1, a PUT
targeting id 1 both updates row 1 in place and inserts a second row,
answering with the same generic success text as the creation path. -/
theorem put_existing_id_also_inserts :
    putHandler true "1" "A" "B" "C" store1 =
      ⟨.success "Recipe updated successfully",
       ⟨[⟨1, "A", "B", "C"⟩, ⟨2, "A", "B", "C"⟩], 3⟩, true, true⟩ := by decide

/-- C4 counterexample: PATCH on the absent id 99 answers the generic
success text — the very same response as PATCH on the present id 1 —
rather than a NotFound outcome. -/
theorem patch_missing_id_reports_success :
    (patchHandler true "99" [("name", JVal.jstr "X")] store1).response
        = Outcome.success "Recipe patched successfully" ∧
    (patchHandler true "99" [("name", JVal.jstr "X")] store1).response
        = (patchHandler true "1" [("name", JVal.jstr "X")] store1).response := by decide

/-- C4 (amended): PATCH on an id that matches no row performs no insert —
the store is left exactly unchanged, and in general PATCH never changes
the row count — but the handler answers the generic success text (when
the statement is well-formed), not a NotFound outcome. -/
theorem patch_missing_id_no_insert (id : String) (vals : Body) (s : Store) (n : Nat)
    (hid : parseId id = some n) (hnom : ∀ r ∈ s.rows, r.id ≠ n) :
    (patchHandler true id vals s).store = s ∧
    (patchKeys vals ≠ [] →
      (patchKeys vals).all (fun k => allowedColumns.contains k) = true →
      (patchHandler true id vals s).response = .success "Recipe patched successfully") ∧
    (∀ (b : Bool) (id2 : String) (vals2 : Body) (s2 : Store),
      ((patchHandler b id2 vals2 s2).store).rows.length = s2.rows.length) := by
  refine ⟨?_, ?_, fun b id2 vals2 s2 => patch_rows_length b id2 vals2 s2⟩
  · simp only [patchHandler]
    rcases hexec : execPatch (patchKeys vals) (buildPatchStatement id vals).params id s
      with _ | ⟨s2, m⟩
    · simp [hexec]
    · simp [hexec, (execPatch_some_no_match hid hnom hexec).1]
  · intro h1 h2
    have hmem : ∀ k ∈ patchKeys vals, k ∈ allowedColumns := by simpa using h2
    have hall2 : (patchKeys vals).all (fun k => tableColumns.contains k) = true := by
      rw [List.all_eq_true]
      intro k hk
      have hk2 := hmem k hk
      simp [allowedColumns] at hk2
      rcases hk2 with rfl | rfl | rfl <;> decide
    have hall3 : ∀ (a b : String),
        (a, b) ∈ (patchKeys vals).zip ((buildPatchStatement id vals).params.map JVal.asText) →
          a = "id" → ¬parseId b = none := by
      intro a b hab heq
      have ham : a ∈ patchKeys vals := (List.of_mem_zip hab).1
      have ha2 := hmem a ham
      rw [heq] at ha2
      simp [allowedColumns] at ha2
    have hex : execPatch (patchKeys vals) (buildPatchStatement id vals).params id s =
        some (⟨s.rows.map (fun r => if r.id = n then
                applyUpdates r ((patchKeys vals).zip
                  ((buildPatchStatement id vals).params.map JVal.asText)) else r),
              s.nextId⟩,
             (s.rows.filter (fun r => r.id = n)).length) := by
      unfold execPatch
      rw [if_neg h1, if_neg (by simpa using hall2), if_neg (by simpa using hall3), hid]
    simp [patchHandler, hex]

/-- Witness for C4: PATCH on id 99 against the one-row store. -/
theorem patch_missing_id_no_insert_witness :
    parseId "99" = some 99 ∧ (∀ r ∈ store1.rows, r.id ≠ 99) ∧
    ((patchHandler true "99" [("name", JVal.jstr "X")] store1).store = store1 ∧
     (patchKeys [("name", JVal.jstr "X")] ≠ [] →
       (patchKeys [("name", JVal.jstr "X")]).all (fun k => allowedColumns.contains k) = true →
       (patchHandler true "99" [("name", JVal.jstr "X")] store1).response
         = .success "Recipe patched successfully") ∧
     (∀ (b : Bool) (id2 : String) (vals2 : Body) (s2 : Store),
       ((patchHandler b id2 vals2 s2).store).rows.length = s2.rows.length)) :=
  ⟨by decide, by decide,
   patch_missing_id_no_insert "99" [("name", JVal.jstr "X")] store1 99 (by decide) (by decide)⟩

/-- C5 counterexample: PATCH with an empty field set still builds a
statement and dispatches it to the store (`storeCalled = true`); the
failure is the store's query error surfaced as a 500, not a synchronous
validation rejection, and the connection is not released. -/
theorem patch_empty_fields_store_called :
    patchHandler true "1" ([] : Body) store1 =
      ⟨.serverError "Error updating recipe", store1, true, false⟩ := by decide

/-- C5 (amended): the PATCH handler performs no field validation. An
empty field set, or a field name that is no column of the recipes
table, still results in a statement being built and dispatched; the
store rejects the malformed statement and the handler answers a
generic 500 (no distinct validation outcome), the store unchanged but
called and the connection unreleased. The field set is NOT checked
against the API's mutable fields {name, description, photo}: the body
key `id` names a real column, so PATCH with body assigning `id` is
accepted by the store, answers 200 and rewrites the row's id. -/
theorem patch_invalid_fields_reach_store (id : String) (vals : Body) (s : Store)
    (h : patchKeys vals = [] ∨
      (patchKeys vals).all (fun k => tableColumns.contains k) = false) :
    patchHandler true id vals s =
      ⟨.serverError "Error updating recipe", s, true, false⟩ ∧
    patchHandler true "1" [("id", JVal.jnum 5)] store1 =
      ⟨.success "Recipe patched successfully",
       ⟨[⟨5, "Toast", "Simple", ""⟩], 2⟩, true, true⟩ := by
  refine ⟨?_, by decide⟩
  have hex : execPatch (patchKeys vals) (buildPatchStatement id vals).params id s = none := by
    unfold execPatch
    rcases h with h | h
    · rw [if_pos h]
    · have hne : patchKeys vals ≠ [] := by
        intro he
        rw [he] at h
        simp at h
      rw [if_neg hne, if_pos (by simpa using h)]
  simp [patchHandler, hex]

/-- Witness for C5: a body whose single field name is not a column. -/
theorem patch_invalid_fields_reach_store_witness :
    (patchKeys [("author", JVal.jstr "X")] = [] ∨
      (patchKeys [("author", JVal.jstr "X")]).all (fun k => tableColumns.contains k) = false) ∧
    (patchHandler true "1" [("author", JVal.jstr "X")] store1 =
      ⟨.serverError "Error updating recipe", store1, true, false⟩ ∧
     patchHandler true "1" [("id", JVal.jnum 5)] store1 =
      ⟨.success "Recipe patched successfully",
       ⟨[⟨5, "Toast", "Simple", ""⟩], 2⟩, true, true⟩) :=
  ⟨Or.inr (by decide),
   patch_invalid_fields_reach_store "1" [("author", JVal.jstr "X")] store1 (Or.inr (by decide))⟩

/-- C6 counterexample: a PUT on the absent id 50 and a PUT on the
present id 1 answer the identical generic success text — the caller
cannot distinguish the creation fallback from an in-place update. -/
theorem put_outcomes_indistinguishable :
    (putHandler true "50" "N" "D" "P" store1).response
      = (putHandler true "1" "N" "D" "P" store1).response := by decide

/-- C6 (amended): a PUT whose id matches no row inserts exactly one new
row whose id is the store-assigned serial (independent of the requested
id), but the response is the same generic success text as a PUT on an
existing id, so the two outcomes are not distinguishable. -/
theorem put_missing_id_inserts_one_row (id : String)
    (name description photo : String) (s : Store) (n : Nat)
    (hid : parseId id = some n) (hnom : ∀ r ∈ s.rows, r.id ≠ n) :
    putHandler true id name description photo s =
      ⟨.success "Recipe updated successfully",
       ⟨s.rows ++ [⟨s.nextId, name, description, photo⟩], s.nextId + 1⟩, true, true⟩ := by
  simp only [putHandler, hid]
  rw [map_overwrite_no_match s.rows n _ hnom]
  simp

/-- Witness for C6: PUT on id 50 against the one-row store. -/
theorem put_missing_id_inserts_one_row_witness :
    parseId "50" = some 50 ∧ (∀ r ∈ store1.rows, r.id ≠ 50) ∧
    putHandler true "50" "N" "D" "P" store1 =
      ⟨.success "Recipe updated successfully",
       ⟨store1.rows ++ [⟨store1.nextId, "N", "D", "P"⟩], store1.nextId + 1⟩, true, true⟩ :=
  ⟨by decide, by decide,
   put_missing_id_inserts_one_row "50" "N" "D" "P" store1 50 (by decide) (by decide)⟩

/-- C7 counterexample: DELETE of the absent id 99 and DELETE of the
present id 1 answer the identical generic success text — Deleted and
NotFound are not distinguishable, and the absent case is reported as
success rather than NotFound. -/
theorem delete_outcomes_indistinguishable :
    (deleteHandler true "99" store1).response = (deleteHandler true "1" store1).response := by
  decide

/-- C7 (amended): DELETE removes exactly the rows carrying the target id
and is not an error on a non-existent id, but it reports the same
generic success text whether or not a row matched — the response does
not depend on the store at all. -/
theorem delete_removes_and_reports_uniformly (s : Store) (id : String) (n : Nat)
    (hid : parseId id = some n) :
    (deleteHandler true id s).store.rows = s.rows.filter (fun r => ¬ r.id = n) ∧
    (deleteHandler true id s).response = .success "Recipe deleted successfully" ∧
    (∀ r ∈ (deleteHandler true id s).store.rows, r.id ≠ n) ∧
    (∀ s2 : Store, (deleteHandler true id s2).response = (deleteHandler true id s).response) := by
  simp only [deleteHandler, hid]
  refine ⟨rfl, rfl, ?_, fun s2 => rfl⟩
  intro r hr
  have hp := List.of_mem_filter hr
  simpa using hp

/-- Witness for C7: DELETE of id 1 against the one-row store. -/
theorem delete_removes_and_reports_uniformly_witness :
    parseId "1" = some 1 ∧
    ((deleteHandler true "1" store1).store.rows = store1.rows.filter (fun r => ¬ r.id = 1) ∧
     (deleteHandler true "1" store1).response = .success "Recipe deleted successfully" ∧
     (∀ r ∈ (deleteHandler true "1" store1).store.rows, r.id ≠ 1) ∧
     (∀ s2 : Store, (deleteHandler true "1" s2).response
        = (deleteHandler true "1" store1).response)) :=
  ⟨by decide, delete_removes_and_reports_uniformly store1 "1" 1 (by decide)⟩

/-- C8 counterexample: PATCH with a field name that is no column — the
connection is acquired (the handler got as far as dispatching the
query), the query fails, and the handler answers 500 without executing
`client.release()`. -/
theorem release_skipped_on_query_error :
    (patchHandler true "1" [("author", JVal.jstr "Y")] store1).released = false ∧
    (patchHandler true "1" [("author", JVal.jstr "Y")] store1).response
      = Outcome.serverError "Error updating recipe" := by decide

/-- C8 (amended): for every handler, the connection is released exactly
on the success path: whenever a handler answers a 500 — be it a store
connectivity failure or a failing statement — `client.release()` is
skipped, so error exits terminate holding the acquired connection. -/
theorem released_iff_success (b : Bool) (id : String) (vals : Body)
    (name description photo : String) (file : Option String) (s : Store) :
    ((postHandler b name description photo file s).released
        = ((postHandler b name description photo file s).response).isSuccess) ∧
    ((patchHandler b id vals s).released = ((patchHandler b id vals s).response).isSuccess) ∧
    ((putHandler b id name description photo s).released
        = ((putHandler b id name description photo s).response).isSuccess) ∧
    ((deleteHandler b id s).released = ((deleteHandler b id s).response).isSuccess) := by
  cases b with
  | false => exact ⟨rfl, rfl, rfl, rfl⟩
  | true =>
    refine ⟨rfl, ?_, ?_, ?_⟩
    · simp only [patchHandler]
      rcases hexec : execPatch (patchKeys vals) (buildPatchStatement id vals).params id s
        with _ | ⟨s2, m⟩ <;> simp [hexec, Outcome.isSuccess]
    · simp only [putHandler]
      rcases hid : parseId id with _ | n <;> simp [hid, Outcome.isSuccess]
    · simp only [deleteHandler]
      rcases hid : parseId id with _ | n <;> simp [hid, Outcome.isSuccess]

/-- C9 (confirmed): the POST handler inserts exactly the caller-supplied
body string `photo` (together with `name` and `description`) and never
reads the multipart-parsed file: the entire observable result is
identical for any two uploaded files. -/
theorem post_photo_from_body_ignores_file (b : Bool)
    (name description photo : String) (f1 f2 : Option String) (s : Store) :
    postHandler b name description photo f1 s = postHandler b name description photo f2 s ∧
    (postHandler true name description photo f1 s).store.rows
      = s.rows ++ [⟨s.nextId, name, description, photo⟩] ∧
    (postHandler true name description photo f1 s).response
      = .success "Recipe created successfully" :=
  ⟨rfl, rfl, rfl⟩

end RecipeApp
